import Mathlib

/-!
# Verification of the prozes custom template engine

A shallow embedding of `src/prozes/modules/templates.py` (the custom
template engine of the `prozes` scaffolding tool), together with proofs
of the specification's claims about it.

Modelling conventions:
* Python values that flow through the engine (JSON scalars, variable
  values, metadata fields) are modelled by the inductive `Json`; Python's
  `None` is `Json.null` (the `json` module maps `null` to `None`).
* Python dicts are modelled as insertion-ordered association lists with
  `dlookup` / `dinsert` / `dupdate` mirroring `d[k]`, `d.get(k)`,
  `d[k] = v` and `d.update(other)`.
* Python's `isinstance(value, int)` is true for `bool` values (bool is a
  subclass of int); the `isinstance` models below encode that.
* Filesystem effects are modelled by explicit state passing over a small
  `FS` record; `try`/`except` becomes `Except` with an inductive error
  type standing for the exception classes the code raises.
-/

/-- JSON values as Python's `json` module materialises them (numbers
restricted to integers; the engine's own data never uses floats). This
type also stands for the dynamic Python values (`Any`) that flow through
the engine, with `null` standing for Python `None`. -/
inductive Json where
  | null : Json
  | bool (b : Bool) : Json
  | num (n : Int) : Json
  | str (s : String) : Json
  | arr (xs : List Json) : Json
  | obj (kvs : List (String × Json)) : Json

/-- Python truthiness of a value: `None`, `False`, `0`, `""`, `[]`, `{}`
are falsy, everything else truthy. -/
def Json.truthy : Json → Bool
  | .null => false
  | .bool b => b
  | .num n => n != 0
  | .str s => s ≠ ""
  | .arr xs => !xs.isEmpty
  | .obj kvs => !kvs.isEmpty

/-- Whether the value is Python `None` (`value is None`). -/
def Json.isNull : Json → Bool
  | .null => true
  | _ => false

/-- `isinstance(value, str)`. -/
def Json.isinstanceStr : Json → Bool
  | .str _ => true
  | _ => false

/-- `isinstance(value, int)`. In Python `bool` is a subclass of `int`,
so boolean values also pass this check. -/
def Json.isinstanceInt : Json → Bool
  | .num _ => true
  | .bool _ => true
  | _ => false

/-- `isinstance(value, bool)`. -/
def Json.isinstanceBool : Json → Bool
  | .bool _ => true
  | _ => false

/-- Python `str(value)` for the scalar values the engine substitutes.
Container values never reach `str` in the modelled claims; they are
outside the modelled fragment and rendered as `""`. -/
def Json.pyStr : Json → String
  | .null => "None"
  | .bool true => "True"
  | .bool false => "False"
  | .num n => toString n
  | .str s => s
  | .arr _ => ""
  | .obj _ => ""

/-- The keys of a JSON object (`dict.keys()`), `[]` for non-objects. -/
def Json.keys : Json → List String
  | .obj kvs => kvs.map Prod.fst
  | _ => []

/-! ## Python dictionaries as insertion-ordered association lists -/

/-- `d.get(k)`: the value at the first (hence unique, for genuine dict
states) occurrence of the key. -/
def dlookup {κ α : Type} [DecidableEq κ] (d : List (κ × α)) (k : κ) :
    Option α :=
  match d with
  | [] => none
  | (k', v) :: rest => if k' = k then some v else dlookup rest k

/-- `k in d`. -/
def dcontains {κ α : Type} [DecidableEq κ] (d : List (κ × α)) (k : κ) :
    Bool :=
  (dlookup d k).isSome

/-- `d[k] = v`: replace in place when the key is present, append
otherwise (Python dicts keep the original insertion position). -/
def dinsert {κ α : Type} [DecidableEq κ] (d : List (κ × α)) (k : κ)
    (v : α) : List (κ × α) :=
  match d with
  | [] => [(k, v)]
  | (k', v') :: rest =>
      if k' = k then (k, v) :: rest else (k', v') :: dinsert rest k v

/-- `d.update(other)`: insert every pair of `other` in order. -/
def dupdate {κ α : Type} [DecidableEq κ] (d other : List (κ × α)) :
    List (κ × α) :=
  other.foldl (fun acc p => dinsert acc p.1 p.2) d

/-! ## TemplateVariable (`templates.py` lines 41-107) -/

/-- The error messages `TemplateVariable.validate_value` can return,
as an inductive in place of the Python format strings. -/
inductive VarError where
  | isRequired (name : String)
  | mustBeString (name : String)
  | mustBeInteger (name : String)
  | mustBeBoolean (name : String)
deriving DecidableEq

/-- `TemplateVariable`: one substitutable parameter of a template.
`default = Json.null` stands for Python `default=None` (no default).
The `required` field is only ever truth-tested by the code, so it is
modelled as the `Bool` its stored value is truthy-equivalent to. -/
structure TemplateVariable where
  name : String
  type : String := "string"
  description : String := ""
  required : Bool := false
  default : Json := Json.null

/-- `TemplateVariable.validate_value` (lines 51-73): `None` is valid iff
the variable is not required; a present value must match the declared
type's runtime representation, where the integer check is Python's
`isinstance(value, int)` (so booleans pass it). -/
def TemplateVariable.validate_value (v : TemplateVariable) (value : Json) :
    Bool × Option VarError :=
  if value.isNull then
    if v.required then (false, some (.isRequired v.name)) else (true, none)
  else if v.type = "string" then
    if !value.isinstanceStr then (false, some (.mustBeString v.name))
    else (true, none)
  else if v.type = "integer" then
    if !value.isinstanceInt then (false, some (.mustBeInteger v.name))
    else (true, none)
  else if v.type = "boolean" then
    if !value.isinstanceBool then (false, some (.mustBeBoolean v.name))
    else (true, none)
  else (true, none)

/-- `TemplateVariable.to_dict` (lines 100-107): the JSON record written
for one variable (the `name` is the enclosing dict key, not a field). -/
def TemplateVariable.to_dict (v : TemplateVariable) : Json :=
  .obj [("type", .str v.type), ("description", .str v.description),
        ("required", .bool v.required), ("default", v.default)]

/-! ## Constants (`templates.py` lines 19-34) -/

def TEMPLATE_VERSION : String := "1.0"

/-- `DEFAULT_TEXT_EXTENSIONS` (a Python set; modelled as the list in the
source's written order, only membership is ever used). -/
def DEFAULT_TEXT_EXTENSIONS : List String :=
  [".py", ".txt", ".md", ".json", ".toml", ".yaml", ".yml",
   ".ini", ".cfg", ".conf", ".rst", ".html", ".css", ".js",
   ".sh", ".bat", ".ps1", ".xml", ".env", ".gitignore"]

/-- `DEFAULT_EXCLUDE_DIRS` (a Python set; modelled as the list in the
source's written order, only membership is ever used). -/
def DEFAULT_EXCLUDE_DIRS : List String :=
  ["__pycache__", ".git", "venv", ".venv", "env", ".env",
   "node_modules", ".pytest_cache", ".mypy_cache", ".tox",
   "*.egg-info", "dist", "build", ".idea", ".vscode"]

/-- The local `binary_extensions` set of `detect_file_type`
(lines 370-374). -/
def BINARY_EXTENSIONS : List String :=
  [".pyc", ".pyo", ".so", ".dll", ".dylib", ".exe",
   ".png", ".jpg", ".jpeg", ".gif", ".ico", ".pdf",
   ".zip", ".tar", ".gz", ".bz2", ".whl", ".egg"]

/-- Python `str.lower()` restricted to ASCII (every extension the code
compares against is ASCII). -/
def strLower (s : String) : String := String.mk (s.data.map Char.toLower)

/-! ## TemplateMetadata (`templates.py` lines 110-218) -/

/-- `data.get(k)` on a parsed JSON object. -/
def Json.get? : Json → String → Option Json
  | .obj kvs, k => dlookup kvs k
  | _, _ => none

/-- Whether the value is a Python dict (a JSON object). -/
def Json.isObj : Json → Bool
  | .obj _ => true
  | _ => false

/-- A raw JSON value read into the model's `String`-typed
`TemplateVariable.type` / `description` fields. Python stores the raw
value; the only semantic use of `type` is the equality comparisons
against `"string"` / `"integer"` / `"boolean"` in `validate_value`
(and `description` is only ever displayed). A non-string raw value
compares unequal to every `str` in Python, and its image `""` here
also equals none of the three names, so `validate_value` behaves
identically; strings pass through unchanged. (Re-serialising such an
ill-typed loaded variable is the one observable difference, and no
operation of the engine does that.) -/
def Json.asStr : Json → String
  | .str s => s
  | _ => ""

/-- `var_data.get(k, default)` for the two `String`-modelled variable
fields, see `Json.asStr`. -/
def Json.getStr (data : Json) (k : String) (dflt : String) : String :=
  match data.get? k with
  | some j => j.asStr
  | none => dflt

/-- `data.get(k, default)` for a raw JSON field. -/
def Json.getD (data : Json) (k : String) (dflt : Json) : Json :=
  match data.get? k with
  | some j => j
  | none => dflt

/-- `TemplateMetadata`: the persisted `template.json` descriptor. The
dataclass annotates the scalar fields as `str`, but `from_json` stores
whatever raw value the file holds (a numeric `name` loads fine and is
truthy), so every field that can come from a file is the raw Python
value: `Json`, with the dataclass string defaults as `.str` values.
The code only ever truth-tests these scalars (`validate`,
`__post_init__`) or serialises them back verbatim. -/
structure TemplateMetadata where
  version : Json := .str TEMPLATE_VERSION
  name : Json := .str ""
  description : Json := .str ""
  author : Json := .str ""
  created_at : Json := .str ""
  prozes_version : Json := .str "1.0.0"
  «variables» : List (String × TemplateVariable) := []
  dependencies : Json := .obj []
  variable_substitution : Json := .obj []
  file_patterns : Json := .obj []

/-- The default `variable_substitution` record installed by
`__post_init__` (lines 130-136). -/
def defaultVariableSubstitution : Json :=
  .obj [("enabled", .bool true),
        ("patterns", .arr [.str "\x7b\x7bvariable_name\x7d\x7d"]),
        ("files", .arr [.str "**/*.py", .str "**/*.txt", .str "**/*.md",
                        .str "**/*.toml", .str "**/*.json"]),
        ("exclude", .arr [.str "**/*.pyc", .str "**/__pycache__/*",
                          .str "**/venv/*"])]

/-- The default `file_patterns` record installed by `__post_init__`
(lines 138-142); `list(...)` of the two constant sets. -/
def defaultFilePatterns : Json :=
  .obj [("text_extensions", .arr (DEFAULT_TEXT_EXTENSIONS.map .str)),
        ("exclude_dirs", .arr (DEFAULT_EXCLUDE_DIRS.map .str))]

/-- `TemplateMetadata.__post_init__` (lines 125-142): stamp `created_at`
with the current time when falsy, and install the default
`variable_substitution` / `file_patterns` records when the stored value
is falsy. `now` is `datetime.now().isoformat()`. -/
def TemplateMetadata.post_init (now : String) (m : TemplateMetadata) :
    TemplateMetadata :=
  { m with
    created_at := if m.created_at.truthy then m.created_at else .str now,
    variable_substitution :=
      if m.variable_substitution.truthy then m.variable_substitution
      else defaultVariableSubstitution,
    file_patterns :=
      if m.file_patterns.truthy then m.file_patterns
      else defaultFilePatterns }

/-- The domain on which the value-level part of
`TemplateMetadata.from_json` raises an uncaught `AttributeError`
(lines 150-159): the parsed file is not a dict (`data.get` on a
non-dict), the `variables` value — when the key is present — is not a
dict (`.items()` on a non-dict), or some variable record is not a dict
(`var_data.get` on a non-dict). `AttributeError` is neither a
`FileNotFoundError` nor a `ValueError`, so callers that catch only
those let it propagate. -/
def from_json_raises (data : Json) : Bool :=
  if !data.isObj then true
  else
    match data.get? "variables" with
    | none => false
    | some (.obj kvs) => kvs.any fun p => !p.2.isObj
    | some _ => true

/-- The value-level part of `TemplateMetadata.from_json` (lines
144-172), on a parsed JSON value outside the raising domain
(`from_json_raises`; Python raises an uncaught `AttributeError` there,
and `readMetadata` below models the caller-visible outcome): rebuild
the `variables` map from the nested record (each variable's `name` is
its dict key; `type` defaults to `"string"`, `required` to false,
`default` to `None`), read every other field raw with its `data.get`
fallback, and run the dataclass constructor (hence `__post_init__`). -/
def TemplateMetadata.from_json (now : String) (data : Json) :
    TemplateMetadata :=
  let raw : List (String × Json) :=
    match data.get? "variables" with
    | some (.obj kvs) => kvs
    | _ => []
  let vars := raw.map fun p =>
      (p.1,
       { name := p.1,
         type := Json.getStr p.2 "type" "string",
         description := Json.getStr p.2 "description" "",
         required := (Json.getD p.2 "required" (.bool false)).truthy,
         default := Json.getD p.2 "default" .null : TemplateVariable })
  TemplateMetadata.post_init now
    { version := Json.getD data "version" (.str TEMPLATE_VERSION),
      name := Json.getD data "name" (.str ""),
      description := Json.getD data "description" (.str ""),
      author := Json.getD data "author" (.str ""),
      created_at := Json.getD data "created_at" (.str ""),
      prozes_version := Json.getD data "prozes_version" (.str "1.0.0"),
      «variables» := vars,
      dependencies := Json.getD data "dependencies" (.obj []),
      variable_substitution :=
        Json.getD data "variable_substitution" (.obj []),
      file_patterns := Json.getD data "file_patterns" (.obj []) }

/-- `TemplateMetadata.to_dict` (lines 174-192): the JSON object `save`
serialises (`save` itself is `json.dump` of this value, and loading is
`json.load` followed by `from_json`, so the save/load file round trip is
`from_json now (to_dict m)`). -/
def TemplateMetadata.to_dict (m : TemplateMetadata) : Json :=
  .obj [("version", m.version),
        ("name", m.name),
        ("description", m.description),
        ("author", m.author),
        ("created_at", m.created_at),
        ("prozes_version", m.prozes_version),
        ("variables", .obj (m.«variables».map fun p => (p.1, p.2.to_dict))),
        ("dependencies", m.dependencies),
        ("variable_substitution", m.variable_substitution),
        ("file_patterns", m.file_patterns)]

/-- The error messages `TemplateMetadata.validate` can accumulate. -/
inductive MetaError where
  | nameRequired
  | versionRequired
  | keyMismatch (key name : String)
deriving DecidableEq

/-- `TemplateMetadata.validate` (lines 199-218): all violations, in
check order (empty list = valid); `if not self.name` is Python
truthiness of the raw stored value. -/
def TemplateMetadata.validate (m : TemplateMetadata) : List MetaError :=
  (if !m.name.truthy then [.nameRequired] else []) ++
  (if !m.version.truthy then [.versionRequired] else []) ++
  m.«variables».filterMap fun p =>
    if p.1 ≠ p.2.name then some (.keyMismatch p.1 p.2.name) else none

/-! ## File classifier (`templates.py` lines 356-396) -/

/-- A UTF-8 continuation byte (`0x80..0xBF`). -/
def isCont (b : Nat) : Bool := 0x80 ≤ b && b ≤ 0xBF

/-- Strict UTF-8 decoding of a byte sequence, as Python's
`bytes.decode('utf-8')`: rejects lone or misplaced continuation bytes,
overlong encodings, surrogates (`0xED A0..` and above) and code points
beyond `U+10FFFF`; `none` models `UnicodeDecodeError`. -/
def utf8Decode (bs : List Nat) : Option (List Char) :=
  match bs with
  | [] => some []
  | b :: rest =>
    if b ≤ 0x7F then
      (utf8Decode rest).map (fun cs => Char.ofNat b :: cs)
    else if 0xC2 ≤ b && b ≤ 0xDF then
      match rest with
      | b2 :: r =>
        if isCont b2 then
          (utf8Decode r).map
            (fun cs => Char.ofNat ((b - 0xC0) * 0x40 + (b2 - 0x80)) :: cs)
        else none
      | [] => none
    else if b = 0xE0 then
      match rest with
      | b2 :: b3 :: r =>
        if (0xA0 ≤ b2 && b2 ≤ 0xBF) && isCont b3 then
          (utf8Decode r).map (fun cs =>
            Char.ofNat ((b2 - 0x80) * 0x40 + (b3 - 0x80)) :: cs)
        else none
      | _ => none
    else if (0xE1 ≤ b && b ≤ 0xEC) || (0xEE ≤ b && b ≤ 0xEF) then
      match rest with
      | b2 :: b3 :: r =>
        if isCont b2 && isCont b3 then
          (utf8Decode r).map (fun cs =>
            Char.ofNat ((b - 0xE0) * 0x1000 + (b2 - 0x80) * 0x40 +
              (b3 - 0x80)) :: cs)
        else none
      | _ => none
    else if b = 0xED then
      match rest with
      | b2 :: b3 :: r =>
        if (0x80 ≤ b2 && b2 ≤ 0x9F) && isCont b3 then
          (utf8Decode r).map (fun cs =>
            Char.ofNat (0xD000 + (b2 - 0x80) * 0x40 + (b3 - 0x80)) :: cs)
        else none
      | _ => none
    else if b = 0xF0 then
      match rest with
      | b2 :: b3 :: b4 :: r =>
        if (0x90 ≤ b2 && b2 ≤ 0xBF) && (isCont b3 && isCont b4) then
          (utf8Decode r).map (fun cs =>
            Char.ofNat ((b2 - 0x80) * 0x1000 + (b3 - 0x80) * 0x40 +
              (b4 - 0x80)) :: cs)
        else none
      | _ => none
    else if 0xF1 ≤ b && b ≤ 0xF3 then
      match rest with
      | b2 :: b3 :: b4 :: r =>
        if isCont b2 && (isCont b3 && isCont b4) then
          (utf8Decode r).map (fun cs =>
            Char.ofNat ((b - 0xF0) * 0x40000 + (b2 - 0x80) * 0x1000 +
              (b3 - 0x80) * 0x40 + (b4 - 0x80)) :: cs)
        else none
      | _ => none
    else if b = 0xF4 then
      match rest with
      | b2 :: b3 :: b4 :: r =>
        if (0x80 ≤ b2 && b2 ≤ 0x8F) && (isCont b3 && isCont b4) then
          (utf8Decode r).map (fun cs =>
            Char.ofNat (0x100000 + (b2 - 0x80) * 0x1000 +
              (b3 - 0x80) * 0x40 + (b4 - 0x80)) :: cs)
        else none
      | _ => none
    else none

/-- `chunk.decode('utf-8')` succeeds. -/
def utf8ValidBytes (bs : List Nat) : Bool := (utf8Decode bs).isSome

/-- The classification `detect_file_type` returns. -/
inductive FileType where
  | text
  | binary
  | skip
deriving DecidableEq

/-- A file as the classifier sees it: its extension
(`file_path.suffix`, with the dot, `""` when there is none), its bytes,
and whether opening and reading it succeeds (`readable = false` models
the `except Exception` branch). -/
structure SrcFile where
  suffix : String
  content : List Nat
  readable : Bool

/-- `detect_file_type` (lines 356-396): text allow-list on the
lower-cased extension first, then the binary deny-list, then sniff the
first 8192 bytes — a null byte means binary, otherwise UTF-8 decoding
decides; an I/O failure while reading means skip. -/
def detect_file_type (f : SrcFile) : FileType :=
  if DEFAULT_TEXT_EXTENSIONS.contains (strLower f.suffix) then .text
  else if BINARY_EXTENSIONS.contains (strLower f.suffix) then .binary
  else if !f.readable then .skip
  else
    let chunk := f.content.take 8192
    if chunk.contains 0 then .binary
    else if utf8ValidBytes chunk then .text
    else .binary

/-! ## Variable substitution (`templates.py` lines 22 and 661-688) -/

/-- First character of the token identifier: `[a-zA-Z_]`. -/
def isIdentStart (c : Char) : Bool := c.isAlpha || c = '_'

/-- Continuation character of the token identifier: `[a-zA-Z0-9_]`. -/
def isIdentChar (c : Char) : Bool := c.isAlphanum || c = '_'

/-- Try to match `VARIABLE_PATTERN` anchored at the head of the text:
two braces, an identifier (`[a-zA-Z_][a-zA-Z0-9_]*`, greedy — and since
the next character after a maximal identifier run is never an identifier
character, regex backtracking can never produce a different match), two
closing braces. Returns the identifier and the text after the match. -/
def tryMatchVar (cs : List Char) : Option (String × List Char) :=
  match cs with
  | '{' :: '{' :: c :: rest =>
    if isIdentStart c then
      match (c :: rest).dropWhile isIdentChar with
      | '}' :: '}' :: rest3 =>
          some (String.mk ((c :: rest).takeWhile isIdentChar), rest3)
      | _ => none
    else none
  | _ => none

theorem length_dropWhile_le {α : Type} (p : α → Bool) (l : List α) :
    (l.dropWhile p).length ≤ l.length := by
  induction l with
  | nil => simp [List.dropWhile]
  | cons x xs ih =>
    simp only [List.dropWhile]
    split
    · simp; omega
    · simp

theorem tryMatchVar_length {cs : List Char} {n : String} {r : List Char}
    (h : tryMatchVar cs = some (n, r)) : r.length < cs.length := by
  unfold tryMatchVar at h
  split at h
  next c rest =>
    split at h
    · split at h
      next rest3 heq =>
        have hd := length_dropWhile_le isIdentChar (c :: rest)
        rw [heq] at hd
        simp only [Option.some.injEq, Prod.mk.injEq] at h
        obtain ⟨-, h2⟩ := h
        subst h2
        simp at hd ⊢
        omega
      next => exact absurd h (by simp)
    · exact absurd h (by simp)
  next => exact absurd h (by simp)

/-- The match's `group(0)`: the full matched token text. -/
def tokenText (n : String) : List Char :=
  '{' :: '{' :: n.data ++ ['}', '}']

/-- The recursion worker of `substituteChars`: `fuel` only keeps the
recursion structural (any `fuel ≥ cs.length` computes the same result,
see `substituteGo_fuel`); the defining recurrence of the scan is stated
by `substituteChars_eq`. -/
def substituteGo (vs : List (String × Json)) :
    Nat → List Char → List Char
  | _, [] => []
  | 0, cs => cs
  | Nat.succ fuel, c :: rest =>
    match tryMatchVar (c :: rest) with
    | some (name, rest3) =>
      (match dlookup vs name with
       | some v => v.pyStr.data
       | none => tokenText name) ++ substituteGo vs fuel rest3
    | none => c :: substituteGo vs fuel rest

/-- `substitute_variables` (lines 661-675), over the content's character
list: a single left-to-right `re.sub` pass; each matched token is
replaced by `str(variables.get(name, match.group(0)))` — the stringified
value when the name is a key, the token text itself otherwise — and
non-matching positions are copied one character at a time
(`substituteChars_eq` is the defining recurrence). -/
def substituteChars (vs : List (String × Json)) (cs : List Char) :
    List Char :=
  substituteGo vs cs.length cs

theorem substituteGo_fuel (vs : List (String × Json)) :
    ∀ (f g : Nat) (cs : List Char), cs.length ≤ f → cs.length ≤ g →
      substituteGo vs f cs = substituteGo vs g cs := by
  intro f
  induction f with
  | zero =>
    intro g cs hf _
    have : cs = [] := List.length_eq_zero.mp (Nat.le_zero.mp hf)
    subst this
    cases g <;> simp [substituteGo]
  | succ f ih =>
    intro g cs hf hg
    cases cs with
    | nil => cases g <;> simp [substituteGo]
    | cons c rest =>
      cases g with
      | zero => simp at hg
      | succ g =>
        simp only [substituteGo]
        cases h : tryMatchVar (c :: rest) with
        | some p =>
          obtain ⟨name, rest3⟩ := p
          have hlt := tryMatchVar_length h
          simp only [List.length_cons] at hf hg hlt
          have h3f : rest3.length ≤ f := by omega
          have h3g : rest3.length ≤ g := by omega
          dsimp only
          rw [ih g rest3 h3f h3g]
        | none =>
          simp only [List.length_cons] at hf hg
          dsimp only
          rw [ih g rest (by omega) (by omega)]

/-- The defining recurrence of `substituteChars`: at each position try
to match a token; on a match emit the replacement and continue after the
match, otherwise copy one character and continue. -/
theorem substituteChars_eq (vs : List (String × Json)) (cs : List Char) :
    substituteChars vs cs =
      match tryMatchVar cs with
      | some (name, rest3) =>
        (match dlookup vs name with
         | some v => v.pyStr.data
         | none => tokenText name) ++ substituteChars vs rest3
      | none =>
        match cs with
        | [] => []
        | c :: rest => c :: substituteChars vs rest := by
  cases cs with
  | nil => simp [substituteChars, substituteGo, tryMatchVar]
  | cons c rest =>
    show substituteGo vs (rest.length + 1) (c :: rest) = _
    simp only [substituteGo]
    cases h : tryMatchVar (c :: rest) with
    | some p =>
      obtain ⟨name, rest3⟩ := p
      have hlt := tryMatchVar_length h
      simp only [List.length_cons] at hlt
      dsimp only
      rw [substituteGo_fuel vs rest.length rest3.length rest3 (by omega)
        (Nat.le_refl _)]
      rfl
    | none =>
      dsimp only
      rfl

/-- `substitute_variables(content, variables)` at the `String` level. -/
def substitute_variables (content : String) (vs : List (String × Json)) :
    String :=
  String.mk (substituteChars vs content.data)

/-! ## Project scanner (`templates.py` lines 434-490) -/

/-- One entry `source_path.rglob('*')` yields, by its path relative to
the source root (as components) and whether it is a regular file. -/
structure ScanEntry where
  relParts : List String
  isFile : Bool

/-- The exclusion test of `scan_project_structure` (line 460):
`any(excluded in item.parts for excluded in exclude_dirs)` — an entry of
the exclusion set excludes the path exactly when it is string-equal to
one of the path's components (`item.parts` is the full path, i.e. the
source root's own components followed by the relative components). -/
def excludedPath (exclude_dirs : List String) (parts : List String) :
    Bool :=
  exclude_dirs.any fun excluded => parts.contains excluded

/-- The `files` list `scan_project_structure` collects (lines 447-465):
relative paths of the non-excluded regular files, in traversal order.
The exclusion set is `DEFAULT_EXCLUDE_DIRS` copied and updated with the
caller's extra patterns (set union; modelled as list concatenation,
only membership is used). -/
def scan_project_structure_files (sourceParts : List String)
    (entries : List ScanEntry) (exclude_patterns : List String) :
    List (List String) :=
  let exclude_dirs := DEFAULT_EXCLUDE_DIRS ++ exclude_patterns
  entries.filterMap fun e =>
    if excludedPath exclude_dirs (sourceParts ++ e.relParts) then none
    else if e.isFile then some e.relParts
    else none

/-! ## Template capture: the variable set
(`create_template_from_directory`, lines 576-607) -/

/-- The variable added for one auto-detected identifier (lines 600-607). -/
def mkDetectedVariable (n : String) : TemplateVariable :=
  { name := n, type := "string", description := "Variable " ++ n,
    required := false, default := .null }

/-- The built-in `project_name` variable (lines 579-584). -/
def projectNameVariable : TemplateVariable :=
  { name := "project_name", type := "string",
    description := "Nome do projeto", required := true, default := .null }

/-- The built-in `author` variable (lines 586-592). -/
def authorVariable : TemplateVariable :=
  { name := "author", type := "string", description := "Nome do autor",
    required := false, default := .str "Anonymous" }

/-- One step of the detected-variable loop (lines 600-607): add the
variable only when the name is not already present. -/
def captureDetectStep (acc : List (String × TemplateVariable))
    (n : String) : List (String × TemplateVariable) :=
  if dcontains acc n then acc else dinsert acc n (mkDetectedVariable n)

/-- The `variables` dict `create_template_from_directory` builds (lines
576-607): always `project_name` and `author`; when `detect_variables` is
set, one optional string variable per detected name not already present.
`detected` is the scanner's `detected_variables` set in its iteration
order. -/
def build_capture_variables (detect_variables : Bool)
    (detected : List String) : List (String × TemplateVariable) :=
  let base := dinsert (dinsert [] "project_name" projectNameVariable)
    "author" authorVariable
  if detect_variables then detected.foldl captureDetectStep base
  else base

/-! ## Template store (`templates.py` lines 221-321) -/

/-- A file stored under a template's `structure/` directory: its path
relative to `structure/` (`/`-separated), and its on-disk form as the
classifier and reader see it. -/
structure TFile where
  relPath : String
  suffix : String
  bytes : List Nat
  readable : Bool

/-- A loaded template (`Template`, lines 221-286): its name, its parsed
metadata, and the files of its `structure/` tree (standing for the
`path` the Python object carries, which is only ever used to reach those
files). -/
structure Template where
  name : String
  metadata : TemplateMetadata
  structureFiles : List TFile

/-- The exceptions `Template.load` can raise. `missingMetadata`,
`missingStructure` and `invalidMetadata` are the `ValueError`s the code
raises itself; `jsonDecodeError` is `json.JSONDecodeError`, a
`ValueError` subclass; `unreadableMetadata` is the `OSError` of
`open()` on an existing but unreadable `template.json`; and
`attributeError` is the `AttributeError` `from_json` raises on a
wrong-shaped parsed value (see `from_json_raises`). -/
inductive LoadError where
  | missingMetadata
  | unreadableMetadata
  | missingStructure
  | jsonDecodeError
  | attributeError
  | invalidMetadata
deriving DecidableEq

/-- Whether `except (FileNotFoundError, ValueError)` (line 317) catches
the exception: it does not catch `OSError` (other than
`FileNotFoundError`) or `AttributeError`. -/
def LoadError.caught : LoadError → Bool
  | .unreadableMetadata => false
  | .attributeError => false
  | _ => true

/-- The state of a directory entry's `template.json` as the loader can
encounter it: absent; present but unreadable (`open()` raises
`OSError`); readable but not JSON (`json.load` raises
`JSONDecodeError`); or parsed to a JSON value. -/
inductive MetadataFile where
  | absent
  | unreadable
  | malformed
  | parsed (data : Json)

/-- One immediate child of the templates directory as
`list_custom_templates` sees it. -/
structure StoreEntry where
  name : String
  isDir : Bool
  metadataFile : MetadataFile
  hasStructure : Bool
  structureFiles : List TFile

/-- The file part of `TemplateMetadata.from_json` (lines 144-172):
`open()` (can raise `OSError`), `json.load` (can raise
`JSONDecodeError`), the shape-sensitive reads (`AttributeError` on the
`from_json_raises` domain), then the value-level construction. Called
with the metadata file known to exist. -/
def readMetadata (now : String) (mf : MetadataFile) :
    Except LoadError TemplateMetadata :=
  match mf with
  | .absent => .error .missingMetadata
  | .unreadable => .error .unreadableMetadata
  | .malformed => .error .jsonDecodeError
  | .parsed data =>
    if from_json_raises data then .error .attributeError
    else .ok (TemplateMetadata.from_json now data)

/-- `Template.load` (lines 229-267) on a store entry that exists (the
`template_path.exists()` guard holds for every entry `iterdir` yields):
missing `template.json`, then missing `structure/`, then the metadata
read (`readMetadata`: unreadable file, JSON parse failure, wrong-shaped
value), then `validate()` errors each raise; otherwise the template is
returned. -/
def loadStoreEntry (now : String) (e : StoreEntry) :
    Except LoadError Template :=
  match e.metadataFile with
  | .absent => .error .missingMetadata
  | mf =>
    if !e.hasStructure then .error .missingStructure
    else
      match readMetadata now mf with
      | .error err => .error err
      | .ok md =>
        if md.validate ≠ [] then .error .invalidMetadata
        else .ok ⟨e.name, md, e.structureFiles⟩

/-- Stable insertion into a list sorted by template name. -/
def insertByName (t : Template) : List Template → List Template
  | [] => [t]
  | a :: l => if t.name ≤ a.name then t :: a :: l else a :: insertByName t l

/-- `sorted(templates, key=lambda t: t.name)`. -/
def sortTemplatesByName (l : List Template) : List Template :=
  l.foldr insertByName []

/-- The loop of `list_custom_templates` (lines 312-319): for each
directory entry, try to load it; a caught exception
(`except (FileNotFoundError, ValueError)`) prints a warning and skips
the entry; an uncaught one (`OSError` from an unreadable metadata
file, `AttributeError` from a wrong-shaped one) propagates, aborting
the whole listing. -/
def listTemplatesLoop (now : String) :
    List StoreEntry → Except LoadError (List Template)
  | [] => .ok []
  | e :: rest =>
    if !e.isDir then listTemplatesLoop now rest
    else
      match loadStoreEntry now e with
      | .ok t => (listTemplatesLoop now rest).map (fun ts => t :: ts)
      | .error err =>
        if err.caught then listTemplatesLoop now rest
        else .error err

/-- `list_custom_templates` (lines 303-321): run the loop over the
immediate children of the templates directory, and sort the collected
templates by name. The result is a list only when no uncaught
exception escaped the loop. -/
def list_custom_templates (now : String) (entries : List StoreEntry) :
    Except LoadError (List Template) :=
  (listTemplatesLoop now entries).map sortTemplatesByName

/-! ## Template application (`templates.py` lines 691-797) -/

/-- The content written for one destination file. -/
inductive FileData where
  | textData (cs : List Char)
  | binaryData (bs : List Nat)
deriving DecidableEq

/-- The destination filesystem: the paths that exist (as component
lists) and the contents of the files among them. Intermediate directory
nodes created by `mkdir(parents=True)` are elided; only the project root
and the written files are tracked. -/
structure FS where
  nodes : List (List String)
  contents : List (List String × FileData)

/-- `path.exists()`. -/
def FS.pathExists (fs : FS) (p : List String) : Bool := fs.nodes.contains p

/-- Record a created path. -/
def FS.addNode (fs : FS) (p : List String) : FS :=
  if fs.nodes.contains p then fs else { fs with nodes := fs.nodes ++ [p] }

/-- Write (or overwrite) a file. -/
def FS.writeFile (fs : FS) (p : List String) (d : FileData) : FS :=
  { nodes := if fs.nodes.contains p then fs.nodes else fs.nodes ++ [p],
    contents := dinsert fs.contents p d }

/-- The exceptions `apply_template` raises before writing anything
(all `ValueError`s). -/
inductive ApplyError where
  | alreadyExists
  | missingRequired (name : String)
  | invalidValue (e : VarError)
deriving DecidableEq

/-- The variable-resolution merge of `apply_template` (lines 723-736):
start from the built-ins (`project_name` = the argument, `date` and
`year` = the current date/year), add the declared default of every
template variable the caller did not supply whose default is not
`None`, then `all_variables.update(variables)` — the caller-supplied
dict is merged last. -/
def mergeDefaultsStep (vs : List (String × Json))
    (acc : List (String × Json)) (p : String × TemplateVariable) :
    List (String × Json) :=
  if !dcontains vs p.1 && !p.2.default.isNull then
    dinsert acc p.1 p.2.default
  else acc

def builtinVariables (project_name nowDate nowYear : String) :
    List (String × Json) :=
  [("project_name", .str project_name),
   ("date", .str nowDate),
   ("year", .str nowYear)]

def merge_variables (project_name nowDate nowYear : String)
    (tvars : List (String × TemplateVariable))
    (vs : List (String × Json)) : List (String × Json) :=
  dupdate
    (tvars.foldl (mergeDefaultsStep vs)
      (builtinVariables project_name nowDate nowYear))
    vs

/-- The required/type validation loop of `apply_template` (lines
738-747): for each declared variable in order, a required variable
absent from the merged map raises; otherwise
`validate_value(all_variables.get(name, default))` raises on the first
invalid value. `none` means the loop completed without raising. -/
def validate_required (tvars : List (String × TemplateVariable))
    (all_variables : List (String × Json)) : Option ApplyError :=
  match tvars with
  | [] => none
  | (n, v) :: rest =>
    if v.required && !dcontains all_variables n then
      some (.missingRequired n)
    else
      match v.validate_value ((dlookup all_variables n).getD v.default) with
      | (true, _) => validate_required rest all_variables
      | (false, e) => some (.invalidValue (e.getD (.isRequired n)))

/-- Python `str.replace` worker: left-to-right replacement of every
non-overlapping occurrence of `pat` (never empty at the call sites —
the pattern always contains braces). `fuel` only keeps the recursion
structural; `replaceAll` supplies `fuel = s.length`, which is always
enough since each step consumes at least one character. -/
def replaceGo (pat rep : List Char) : Nat → List Char → List Char
  | _, [] => []
  | 0, s => s
  | Nat.succ fuel, c :: rest =>
    if pat.isPrefixOf (c :: rest) then
      rep ++ replaceGo pat rep fuel (List.drop (pat.length - 1) rest)
    else c :: replaceGo pat rep fuel rest

/-- Python `s.replace(pat, rep)` over character lists. -/
def replaceAll (s pat rep : List Char) : List Char :=
  replaceGo pat rep s.length s

/-- The filename substitution of `apply_template` (lines 763-765): a
sequential `str.replace` of every `{{name}}` for each entry of the
merged map, in dict order. -/
def filenameSubst (all_variables : List (String × Json)) (rel : String) :
    String :=
  String.mk (all_variables.foldl
    (fun s p => replaceAll s (tokenText p.1) p.2.pyStr.data) rel.data)

/-- Splitting a relative path string on `/` (how
`project_path / new_path_str` extends the path with the written file's
components). -/
def splitOnSlash (cs : List Char) : List String :=
  match cs with
  | [] => [""]
  | c :: rest =>
    if c = '/' then "" :: splitOnSlash rest
    else
      match splitOnSlash rest with
      | [] => [String.mk [c]]
      | s :: ss => (String.mk (c :: s.data)) :: ss

/-- The content written for one stored file (lines 770-792): classify
it; a text file is read as UTF-8, substituted and written as text, and
any read/decode failure falls back to a verbatim binary copy; anything
else is copied verbatim. -/
def applyFileData (all_variables : List (String × Json)) (f : TFile) :
    FileData :=
  if detect_file_type ⟨f.suffix, f.bytes, f.readable⟩ = .text then
    if f.readable then
      match utf8Decode f.bytes with
      | some cs => .textData (substituteChars all_variables cs)
      | none => .binaryData f.bytes
    else .binaryData f.bytes
  else .binaryData f.bytes

/-- `apply_template` (lines 691-797) with the filesystem passed
explicitly: destination-exists check first (before anything is written),
then the variable merge, then the required/type validation, and only
then the project directory creation and the file-writing walk. An error
result leaves the filesystem exactly as it was; the template itself is
pure input — nothing ever writes into its stored tree. -/
def apply_template (tmpl : Template) (project_name : String)
    (vs : List (String × Json)) (destination : List String)
    (nowDate nowYear : String) (fs : FS) :
    FS × Except ApplyError (List String) :=
  let project_path := destination ++ [project_name]
  if fs.pathExists project_path then (fs, .error .alreadyExists)
  else
    let all_variables :=
      merge_variables project_name nowDate nowYear
        tmpl.metadata.«variables» vs
    match validate_required tmpl.metadata.«variables» all_variables with
    | some e => (fs, .error e)
    | none =>
      let fs1 := fs.addNode project_path
      let fs2 := tmpl.structureFiles.foldl
        (fun acc f =>
          acc.writeFile
            (project_path ++ splitOnSlash (filenameSubst all_variables f.relPath).data)
            (applyFileData all_variables f))
        fs1
      (fs2, .ok project_path)

/-! ## Dictionary lemmas -/

theorem dlookup_dinsert_self {κ α : Type} [DecidableEq κ]
    (d : List (κ × α)) (k : κ) (v : α) :
    dlookup (dinsert d k v) k = some v := by
  induction d with
  | nil => simp [dinsert, dlookup]
  | cons p rest ih =>
    obtain ⟨k', v'⟩ := p
    by_cases h : k' = k
    · subst h
      simp [dinsert, dlookup]
    · simp [dinsert, dlookup, h, ih]

theorem dlookup_dinsert_ne {κ α : Type} [DecidableEq κ]
    (d : List (κ × α)) (k n : κ) (v : α) (h : n ≠ k) :
    dlookup (dinsert d k v) n = dlookup d n := by
  have h' : k ≠ n := Ne.symm h
  induction d with
  | nil => simp [dinsert, dlookup, h']
  | cons p rest ih =>
    obtain ⟨k', v'⟩ := p
    by_cases hk : k' = k
    · subst hk
      simp [dinsert, dlookup, h']
    · simp only [dinsert, if_neg hk, dlookup]
      by_cases hn : k' = n
      · simp [hn]
      · simp [hn, ih]

theorem dcontains_dinsert {κ α : Type} [DecidableEq κ]
    (d : List (κ × α)) (k n : κ) (v : α) :
    dcontains (dinsert d k v) n = (decide (n = k) || dcontains d n) := by
  by_cases h : n = k
  · subst h
    simp [dcontains, dlookup_dinsert_self]
  · simp [dcontains, dlookup_dinsert_ne d k n v h, h]

theorem dlookup_dupdate_of_not_mem {κ α : Type} [DecidableEq κ]
    (d other : List (κ × α)) (n : κ) (h : dlookup other n = none) :
    dlookup (dupdate d other) n = dlookup d n := by
  induction other generalizing d with
  | nil => simp [dupdate]
  | cons p rest ih =>
    obtain ⟨k, v⟩ := p
    simp only [dlookup] at h
    by_cases hk : k = n
    · simp [hk] at h
    · simp only [if_neg hk] at h
      simp only [dupdate, List.foldl_cons] at *
      rw [ih (dinsert d k v) h]
      exact dlookup_dinsert_ne d k n v (Ne.symm hk)

theorem dlookup_not_mem_of_key_not_mem {κ α : Type} [DecidableEq κ]
    (l : List (κ × α)) (n : κ) (h : n ∉ l.map Prod.fst) :
    dlookup l n = none := by
  induction l with
  | nil => rfl
  | cons p rest ih =>
    obtain ⟨k, v⟩ := p
    simp only [List.map_cons, List.mem_cons, not_or] at h
    obtain ⟨h1, h2⟩ := h
    simp only [dlookup, if_neg (Ne.symm h1)]
    exact ih h2

theorem dlookup_dupdate_of_mem {κ α : Type} [DecidableEq κ]
    (d other : List (κ × α)) (n : κ) (v : α)
    (hnd : (other.map Prod.fst).Nodup) (h : dlookup other n = some v) :
    dlookup (dupdate d other) n = some v := by
  induction other generalizing d with
  | nil => simp [dlookup] at h
  | cons p rest ih =>
    obtain ⟨k, w⟩ := p
    simp only [List.map_cons, List.nodup_cons] at hnd
    obtain ⟨hk_not, hnd_rest⟩ := hnd
    simp only [dlookup] at h
    simp only [dupdate, List.foldl_cons]
    by_cases hk : k = n
    · subst hk
      simp at h
      subst h
      have hrest : dlookup rest k = none :=
        dlookup_not_mem_of_key_not_mem rest k hk_not
      rw [show List.foldl (fun acc p => dinsert acc p.1 p.2)
        (dinsert d k w) rest = dupdate (dinsert d k w) rest from rfl]
      rw [dlookup_dupdate_of_not_mem _ _ _ hrest]
      exact dlookup_dinsert_self d k w
    · simp only [if_neg hk] at h
      exact ih (dinsert d k w) hnd_rest h

/-! ## Claim C10 -/

/-- C10: for every variable declared with type `"integer"`,
`validate_value` accepts boolean values — `True`/`False` pass the
integer check with no type-mismatch error, because Python's `bool` is a
subclass of `int` — so an apply supplying a boolean for an integer-typed
variable does not fail type validation. -/
theorem C10_integer_type_accepts_booleans (v : TemplateVariable)
    (h : v.type = "integer") (b : Bool) :
    v.validate_value (Json.bool b) = (true, none) := by
  simp [TemplateVariable.validate_value, Json.isNull, Json.isinstanceInt, h]

/-- C10 witness: a concrete integer-typed variable accepts `True`. -/
theorem C10_integer_type_accepts_booleans_witness :
    TemplateVariable.validate_value
      { name := "count", type := "integer", required := true }
      (Json.bool true) = (true, none) :=
  C10_integer_type_accepts_booleans
    { name := "count", type := "integer", required := true } rfl true

/-! ## Claim C4 -/

/-- C4: for every file whose extension is in neither the text
allow-list nor the binary deny-list, `detect_file_type` reads at most
8192 bytes from the start (the result depends only on that chunk,
third conjunct) and returns binary on a null byte in the chunk, text
when the chunk decodes as UTF-8 and binary otherwise; an I/O failure
while reading gives skip. Extension checks take precedence over
sniffing, first match wins (last two conjuncts). -/
theorem C4_detect_file_type_sniffing (f : SrcFile)
    (hTxt : strLower f.suffix ∉ DEFAULT_TEXT_EXTENSIONS)
    (hBin : strLower f.suffix ∉ BINARY_EXTENSIONS) :
    (detect_file_type f =
      if !f.readable then .skip
      else if (f.content.take 8192).contains 0 then .binary
      else if utf8ValidBytes (f.content.take 8192) then .text
      else .binary) ∧
    (∀ g : SrcFile, g.suffix = f.suffix → g.readable = f.readable →
      g.content.take 8192 = f.content.take 8192 →
      detect_file_type g = detect_file_type f) ∧
    (∀ g : SrcFile,
      strLower g.suffix ∈ DEFAULT_TEXT_EXTENSIONS →
      detect_file_type g = .text) ∧
    (∀ g : SrcFile,
      strLower g.suffix ∉ DEFAULT_TEXT_EXTENSIONS →
      strLower g.suffix ∈ BINARY_EXTENSIONS →
      detect_file_type g = .binary) := by
  refine ⟨?_, ?_, ?_, ?_⟩
  · simp [detect_file_type, hTxt, hBin]
  · intro g hs hr hc
    simp [detect_file_type, hs, hTxt, hBin, hr, hc]
  · intro g hg
    simp [detect_file_type, hg]
  · intro g hg1 hg2
    simp [detect_file_type, hg1, hg2]

/-- C4 witness: a readable `.dat` file (unknown extension) whose first
bytes are valid UTF-8 without null bytes classifies as text. -/
theorem C4_detect_file_type_sniffing_witness :
    detect_file_type ⟨".dat", [104, 105], true⟩ = .text := by
  have h := (C4_detect_file_type_sniffing ⟨".dat", [104, 105], true⟩
    (by decide) (by decide)).1
  rw [h]
  decide

/-! ## Claim C5 -/

/-- C5: for every template, project name and destination directory such
that `destination / project_name` already exists, `apply_template`
fails with the conflict (already-exists) error and writes nothing: the
returned filesystem is exactly the input one (and the template, a pure
input, is untouched by construction). -/
theorem C5_apply_conflict_leaves_fs_unchanged (tmpl : Template)
    (pn : String) (vs : List (String × Json)) (dest : List String)
    (nd ny : String) (fs : FS)
    (h : fs.pathExists (dest ++ [pn]) = true) :
    apply_template tmpl pn vs dest nd ny fs =
      (fs, .error .alreadyExists) := by
  simp [apply_template, h]

/-- C5 witness: applying to a destination where `demo` exists fails and
leaves the filesystem as it was. -/
theorem C5_apply_conflict_witness :
    apply_template ⟨"t", {}, []⟩ "demo" [] [] "2025-01-01" "2025"
      ⟨[["demo"]], []⟩ = (⟨[["demo"]], []⟩, .error .alreadyExists) :=
  C5_apply_conflict_leaves_fs_unchanged ⟨"t", {}, []⟩ "demo" [] []
    "2025-01-01" "2025" ⟨[["demo"]], []⟩ (by decide)

/-! ## Merge lemmas for apply -/

theorem dlookup_foldl_defaults_eq (vs : List (String × Json))
    (tvars : List (String × TemplateVariable))
    (acc : List (String × Json)) (n : String)
    (h : ∀ p ∈ tvars, p.1 = n →
      (!dcontains vs n && !p.2.default.isNull) = false) :
    dlookup (tvars.foldl (mergeDefaultsStep vs) acc) n = dlookup acc n := by
  induction tvars generalizing acc with
  | nil => simp
  | cons p rest ih =>
    simp only [List.foldl_cons]
    have hstep : dlookup (mergeDefaultsStep vs acc p) n = dlookup acc n := by
      unfold mergeDefaultsStep
      split
      next hcond =>
        by_cases hp : p.1 = n
        · rw [hp] at hcond
          rw [h p (List.mem_cons_self _ _) hp] at hcond
          simp at hcond
        · exact dlookup_dinsert_ne acc p.1 n _ (Ne.symm hp)
      next => rfl
    rw [ih (mergeDefaultsStep vs acc p)
      (fun q hq hqn => h q (List.mem_cons_of_mem _ hq) hqn), hstep]

theorem dcontains_foldl_defaults_mono (vs : List (String × Json))
    (tvars : List (String × TemplateVariable))
    (acc : List (String × Json)) (n : String)
    (h : dcontains acc n = true) :
    dcontains (tvars.foldl (mergeDefaultsStep vs) acc) n = true := by
  induction tvars generalizing acc with
  | nil => simpa
  | cons p rest ih =>
    simp only [List.foldl_cons]
    apply ih
    unfold mergeDefaultsStep
    split
    · rw [dcontains_dinsert]
      simp [h]
    · exact h

theorem dcontains_foldl_defaults_of_mem (vs : List (String × Json))
    (tvars : List (String × TemplateVariable))
    (acc : List (String × Json)) (n : String) (v : TemplateVariable)
    (hm : (n, v) ∈ tvars)
    (hc : (!dcontains vs n && !v.default.isNull) = true) :
    dcontains (tvars.foldl (mergeDefaultsStep vs) acc) n = true := by
  induction tvars generalizing acc with
  | nil => simp at hm
  | cons p rest ih =>
    simp only [List.foldl_cons]
    rcases List.mem_cons.mp hm with heq | hmem
    · subst heq
      apply dcontains_foldl_defaults_mono
      unfold mergeDefaultsStep
      simp only [hc, if_pos]
      rw [dcontains_dinsert]
      simp
    · exact ih (mergeDefaultsStep vs acc p) hmem

theorem dcontains_dupdate_of_not_mem {κ α : Type} [DecidableEq κ]
    (d other : List (κ × α)) (n : κ) (h : dcontains other n = false) :
    dcontains (dupdate d other) n = dcontains d n := by
  have h' : dlookup other n = none := by
    unfold dcontains at h
    cases hh : dlookup other n with
    | none => rfl
    | some v => rw [hh] at h; simp at h
  simp [dcontains, dlookup_dupdate_of_not_mem d other n h']

theorem validate_required_none_checks
    (tvars : List (String × TemplateVariable))
    (allv : List (String × Json))
    (h : validate_required tvars allv = none) :
    ∀ p ∈ tvars, (p.2.required && !dcontains allv p.1) = false := by
  induction tvars with
  | nil => simp
  | cons q rest ih =>
    obtain ⟨m, w⟩ := q
    intro p hp
    simp only [validate_required] at h
    split at h
    next hq => simp at h
    next hq =>
      rcases List.mem_cons.mp hp with heq | hmem
      · subst heq
        simpa using hq
      · split at h
        · exact ih h p hmem
        · simp at h

/-! ## Claim C1 -/

/-- C1 counterexample: the claim says built-ins always win over
caller-supplied values, but passing `date="x"` to `apply_template`
yields `"x"` in the merged map and in the substituted output — the
caller-supplied value wins over the built-in current date
(`"2025-01-01"` here). The stored file is `a.txt` containing the bytes
of `\x7b\x7bdate\x7d\x7d`. -/
theorem C1_counterexample :
    dlookup (merge_variables "demo" "2025-01-01" "2025" []
      [("date", Json.str "x")]) "date" = some (Json.str "x") ∧
    dlookup (apply_template
      ⟨"t", {}, [⟨"a.txt", ".txt",
        [123, 123, 100, 97, 116, 101, 125, 125], true⟩]⟩
      "demo" [("date", Json.str "x")] [] "2025-01-01" "2025"
      ⟨[], []⟩).1.contents ["demo", "a.txt"] =
      some (.textData ['x']) ∧
    FileData.textData ['x'] ≠ FileData.textData "2025-01-01".data := by
  refine ⟨rfl, rfl, ?_⟩
  decide

/-- C1 amended: the merge order of `apply_template` is built-ins, then
declared defaults (for variables the caller did not supply whose
default is not `None`), then caller-supplied values — so a
caller-supplied value always wins, even for `project_name`, `date` and
`year`; the built-in value is used only when the caller does not supply
the name and no non-`None` declared default shadows it. (`vs` models a
Python dict, hence the distinct-keys hypothesis.) -/
theorem C1_amended_caller_supplied_wins (pn nd ny : String)
    (tvars : List (String × TemplateVariable))
    (vs : List (String × Json)) (hnd : (vs.map Prod.fst).Nodup) :
    (∀ n v, dlookup vs n = some v →
      dlookup (merge_variables pn nd ny tvars vs) n = some v) ∧
    (∀ n, (n = "project_name" ∨ n = "date" ∨ n = "year") →
      dcontains vs n = false →
      (∀ p ∈ tvars, p.1 = n → p.2.default.isNull = true) →
      dlookup (merge_variables pn nd ny tvars vs) n =
        dlookup (builtinVariables pn nd ny) n) := by
  constructor
  · intro n v hv
    exact dlookup_dupdate_of_mem _ vs n v hnd hv
  · intro n _ hnc hnull
    unfold merge_variables
    have hno : dlookup vs n = none := by
      unfold dcontains at hnc
      cases hh : dlookup vs n with
      | none => rfl
      | some v => rw [hh] at hnc; simp at hnc
    rw [dlookup_dupdate_of_not_mem _ vs n hno]
    exact dlookup_foldl_defaults_eq vs tvars _ n
      (fun p hp hpn => by simp [hnc, hnull p hp hpn])

/-- C1 amended witness: with no declared variables, passing
`date="x"` makes the merged value `"x"`, and an unsupplied `year`
resolves to the built-in. -/
theorem C1_amended_caller_supplied_wins_witness :
    (∀ n v, dlookup [("date", Json.str "x")] n = some v →
      dlookup (merge_variables "demo" "2025-01-01" "2025" []
        [("date", Json.str "x")]) n = some v) ∧
    (∀ n, (n = "project_name" ∨ n = "date" ∨ n = "year") →
      dcontains [("date", Json.str "x")] n = false →
      (∀ p ∈ ([] : List (String × TemplateVariable)), p.1 = n →
        p.2.default.isNull = true) →
      dlookup (merge_variables "demo" "2025-01-01" "2025" []
        [("date", Json.str "x")]) n =
        dlookup (builtinVariables "demo" "2025-01-01" "2025") n) :=
  C1_amended_caller_supplied_wins "demo" "2025-01-01" "2025" []
    [("date", Json.str "x")] (by simp)

/-! ## Claim C2 -/

/-- A required `db_host` variable with a non-null default, for the C2
counterexample. -/
def dbHostWithDefault : TemplateVariable :=
  { name := "db_host", type := "string", required := true,
    default := Json.str "localhost" }

/-- A required `db_host` variable with a null default, for the C2
witness. -/
def dbHostNullDefault : TemplateVariable :=
  { name := "db_host", type := "string", required := true,
    default := Json.null }

/-- C2 counterexample: the claim says a required, non-built-in variable
with no caller-supplied value makes apply fail even when it has a
non-null default — but for `db_host` (required, default
`"localhost"`) and no caller value, the default fills the merged map,
the required gate passes, and `apply_template` succeeds. -/
theorem C2_counterexample :
    dcontains (merge_variables "demo" "2025-01-01" "2025"
      [("db_host", dbHostWithDefault)] []) "db_host" = true ∧
    validate_required [("db_host", dbHostWithDefault)]
      (merge_variables "demo" "2025-01-01" "2025"
        [("db_host", dbHostWithDefault)] []) = none ∧
    (apply_template
      ⟨"t", { name := Json.str "t",
              «variables» := [("db_host", dbHostWithDefault)] }, []⟩
      "demo" [] [] "2025-01-01" "2025" ⟨[], []⟩).2 = .ok ["demo"] :=
  ⟨rfl, rfl, rfl⟩

/-- C2 amended: a required, non-built-in template variable with no
caller-supplied value trips the missing-required gate only when its
default is `None` (and no other declaration of the same name supplies
one): then the merged map lacks the name and the validation loop
raises. When the default is not `None`, the default fills the merged
map and the missing-required check for that variable passes. -/
theorem C2_amended_required_gate (pn nd ny : String)
    (tvars : List (String × TemplateVariable))
    (vs : List (String × Json)) (n : String) (v : TemplateVariable)
    (hm : (n, v) ∈ tvars) (hreq : v.required = true)
    (hnc : dcontains vs n = false)
    (h1 : n ≠ "project_name") (h2 : n ≠ "date") (h3 : n ≠ "year") :
    (v.default.isNull = true →
      (∀ p ∈ tvars, p.1 = n → p.2.default.isNull = true) →
      dcontains (merge_variables pn nd ny tvars vs) n = false ∧
      validate_required tvars (merge_variables pn nd ny tvars vs) ≠
        none) ∧
    (v.default.isNull = false →
      dcontains (merge_variables pn nd ny tvars vs) n = true) := by
  have hno : dlookup vs n = none := by
    unfold dcontains at hnc
    cases hh : dlookup vs n with
    | none => rfl
    | some w => rw [hh] at hnc; simp at hnc
  constructor
  · intro _ hall
    have hb : dlookup (builtinVariables pn nd ny) n = none := by
      simp only [builtinVariables, dlookup]
      rw [if_neg (fun hh => h1 hh.symm), if_neg (fun hh => h2 hh.symm),
        if_neg (fun hh => h3 hh.symm)]
    have hmerged : dcontains (merge_variables pn nd ny tvars vs) n =
        false := by
      unfold merge_variables
      rw [dcontains_dupdate_of_not_mem _ vs n hnc]
      unfold dcontains
      rw [dlookup_foldl_defaults_eq vs tvars _ n
        (fun p hp hpn => by simp [hall p hp hpn]), hb]
      rfl
    refine ⟨hmerged, ?_⟩
    intro hcontra
    have := validate_required_none_checks tvars _ hcontra (n, v) hm
    rw [hreq, hmerged] at this
    simp at this
  · intro hnotnull
    unfold merge_variables
    rw [dcontains_dupdate_of_not_mem _ vs n hnc]
    exact dcontains_foldl_defaults_of_mem vs tvars _ n v hm
      (by simp [hnc, hnotnull])

/-- C2 amended witness: `db_host` required with `None` default and no
caller value — the merged map lacks it and validation raises. -/
theorem C2_amended_required_gate_witness :
    ((dbHostNullDefault.default.isNull = true →
      (∀ p ∈ [("db_host", dbHostNullDefault)], p.1 = "db_host" →
        p.2.default.isNull = true) →
      dcontains (merge_variables "demo" "2025-01-01" "2025"
        [("db_host", dbHostNullDefault)] []) "db_host" = false ∧
      validate_required [("db_host", dbHostNullDefault)]
        (merge_variables "demo" "2025-01-01" "2025"
          [("db_host", dbHostNullDefault)] []) ≠ none) ∧
    (dbHostNullDefault.default.isNull = false →
      dcontains (merge_variables "demo" "2025-01-01" "2025"
        [("db_host", dbHostNullDefault)] []) "db_host" = true)) :=
  C2_amended_required_gate "demo" "2025-01-01" "2025"
    [("db_host", dbHostNullDefault)] [] "db_host" dbHostNullDefault
    (by simp) rfl rfl (by decide) (by decide) (by decide)

/-! ## Claim C9 -/

theorem dlookup_foldl_captureDetectStep_preserved
    (l : List String) (acc : List (String × TemplateVariable))
    (m : String) (w : TemplateVariable) (h : dlookup acc m = some w) :
    dlookup (l.foldl captureDetectStep acc) m = some w := by
  induction l generalizing acc with
  | nil => simpa
  | cons n rest ih =>
    simp only [List.foldl_cons]
    apply ih
    unfold captureDetectStep
    split
    · exact h
    next hnc =>
      by_cases hm : n = m
      · subst hm
        unfold dcontains at hnc
        rw [h] at hnc
        simp at hnc
      · rw [dlookup_dinsert_ne acc n m _ (Ne.symm hm)]
        exact h

theorem dlookup_foldl_captureDetectStep_mem
    (l : List String) (acc : List (String × TemplateVariable))
    (n : String) (hn : n ∈ l)
    (hinv : dlookup acc n = none ∨
      dlookup acc n = some (mkDetectedVariable n)) :
    dlookup (l.foldl captureDetectStep acc) n =
      some (mkDetectedVariable n) := by
  induction l generalizing acc with
  | nil => simp at hn
  | cons m rest ih =>
    simp only [List.foldl_cons]
    by_cases hm : m = n
    · subst hm
      rcases hinv with hnone | hsome
      · have : captureDetectStep acc m = dinsert acc m
            (mkDetectedVariable m) := by
          unfold captureDetectStep
          rw [if_neg]
          unfold dcontains
          rw [hnone]
          simp
        rw [this]
        exact dlookup_foldl_captureDetectStep_preserved rest _ m _
          (dlookup_dinsert_self acc m _)
      · have : captureDetectStep acc m = acc := by
          unfold captureDetectStep
          rw [if_pos]
          unfold dcontains
          rw [hsome]
          rfl
        rw [this]
        exact dlookup_foldl_captureDetectStep_preserved rest _ m _ hsome
    · have hrest : n ∈ rest := by
        rcases List.mem_cons.mp hn with h' | h'
        · exact absurd h'.symm hm
        · exact h'
      apply ih _ hrest
      unfold captureDetectStep
      split
      · exact hinv
      · rw [dlookup_dinsert_ne acc m n _ (Ne.symm hm)]
        exact hinv

/-- C9: the variable set a capture builds always contains
`project_name` (string, required, no default) and `author` (string,
optional, default `"Anonymous"`); with auto-detection enabled it also
contains one optional string variable per detected identifier whose
name is not already present (identifiers named `project_name` or
`author` keep the built-in declaration); with auto-detection disabled
it contains exactly the two built-ins. -/
theorem C9_capture_variable_set (detect : Bool) (detected : List String) :
    dlookup (build_capture_variables detect detected) "project_name" =
      some projectNameVariable ∧
    dlookup (build_capture_variables detect detected) "author" =
      some authorVariable ∧
    (projectNameVariable.type = "string" ∧
      projectNameVariable.required = true ∧
      projectNameVariable.default.isNull = true) ∧
    (authorVariable.type = "string" ∧ authorVariable.required = false ∧
      authorVariable.default = Json.str "Anonymous") ∧
    (∀ n ∈ detected, n ≠ "project_name" → n ≠ "author" →
      dlookup (build_capture_variables true detected) n =
        some (mkDetectedVariable n) ∧
      (mkDetectedVariable n).type = "string" ∧
      (mkDetectedVariable n).required = false ∧
      (mkDetectedVariable n).default.isNull = true) ∧
    build_capture_variables false detected =
      [("project_name", projectNameVariable),
       ("author", authorVariable)] := by
  have hbase : dinsert (dinsert [] "project_name" projectNameVariable)
      "author" authorVariable =
      [("project_name", projectNameVariable),
       ("author", authorVariable)] := rfl
  refine ⟨?_, ?_, ⟨rfl, rfl, rfl⟩, ⟨rfl, rfl, rfl⟩, ?_, rfl⟩
  · cases detect with
    | false => rfl
    | true =>
      unfold build_capture_variables
      rw [if_pos rfl, hbase]
      exact dlookup_foldl_captureDetectStep_preserved detected _ _ _ rfl
  · cases detect with
    | false => rfl
    | true =>
      unfold build_capture_variables
      rw [if_pos rfl, hbase]
      exact dlookup_foldl_captureDetectStep_preserved detected _ _ _ rfl
  · intro n hn h1 h2
    refine ⟨?_, rfl, rfl, rfl⟩
    unfold build_capture_variables
    rw [if_pos rfl, hbase]
    apply dlookup_foldl_captureDetectStep_mem detected _ n hn
    left
    simp only [dlookup]
    rw [if_neg (fun hh => h1 hh.symm), if_neg (fun hh => h2 hh.symm)]

/-! ## Claim C8 -/

/-- C8: the scan excludes a path exactly when some path component is
string-equal to an exclusion entry — no glob interpretation — so the
default entry `*.egg-info` only matches a component literally named
`*.egg-info`; a directory named `foo.egg-info` is not matched by any
default entry, and its files appear in the scan result. -/
theorem C8_exclusion_is_exact_component_match :
    (∀ (exclude_dirs : List String) (parts : List String),
      excludedPath exclude_dirs parts = true ↔
        ∃ c ∈ parts, c ∈ exclude_dirs) ∧
    "foo.egg-info" ∉ DEFAULT_EXCLUDE_DIRS ∧
    scan_project_structure_files ["proj"]
      [⟨["foo.egg-info", "data.bin"], true⟩] [] =
      [["foo.egg-info", "data.bin"]] := by
  refine ⟨?_, by decide, by decide⟩
  intro exclude_dirs parts
  unfold excludedPath
  rw [List.any_eq_true]
  constructor
  · rintro ⟨e, he, hc⟩
    exact ⟨e, by simpa using hc, he⟩
  · rintro ⟨c, hc, he⟩
    exact ⟨c, he, by simpa using hc⟩

/-! ## Claim C7 -/

theorem mem_insertByName (a t : Template) (l : List Template) :
    a ∈ insertByName t l ↔ a = t ∨ a ∈ l := by
  induction l with
  | nil => simp [insertByName]
  | cons b l ih =>
    unfold insertByName
    split
    · simp [List.mem_cons]
    · simp only [List.mem_cons, ih]
      tauto

theorem pairwise_insertByName (t : Template) (l : List Template)
    (h : l.Pairwise (fun a b => a.name ≤ b.name)) :
    (insertByName t l).Pairwise (fun a b => a.name ≤ b.name) := by
  induction l with
  | nil => simp [insertByName]
  | cons a l ih =>
    rw [List.pairwise_cons] at h
    obtain ⟨ha, hl⟩ := h
    unfold insertByName
    split
    next hle =>
      rw [List.pairwise_cons]
      refine ⟨?_, List.pairwise_cons.mpr ⟨ha, hl⟩⟩
      intro b hb
      rcases List.mem_cons.mp hb with rfl | hbl
      · exact hle
      · exact le_trans hle (ha b hbl)
    next hle =>
      rw [List.pairwise_cons]
      refine ⟨?_, ih hl⟩
      intro b hb
      rcases (mem_insertByName b t l).mp hb with rfl | hbl
      · exact le_of_not_le hle
      · exact ha b hbl

theorem mem_sortTemplatesByName (a : Template) (l : List Template) :
    a ∈ sortTemplatesByName l ↔ a ∈ l := by
  induction l with
  | nil => simp [sortTemplatesByName]
  | cons b l ih =>
    show a ∈ insertByName b (sortTemplatesByName l) ↔ _
    rw [mem_insertByName, ih]
    simp [List.mem_cons]

theorem pairwise_sortTemplatesByName (l : List Template) :
    (sortTemplatesByName l).Pairwise (fun a b => a.name ≤ b.name) := by
  induction l with
  | nil => simp [sortTemplatesByName]
  | cons b l ih => exact pairwise_insertByName b _ ih

/-- Whether a load outcome lets the listing loop continue: success, or
an exception `except (FileNotFoundError, ValueError)` catches. -/
def loadOutcomeCaught : Except LoadError Template → Bool
  | .ok _ => true
  | .error err => err.caught

/-- The well-formed store entry of the C7 scenario: metadata naming the
template `alpha`. -/
def goodStoreEntry : StoreEntry :=
  ⟨"alpha", true,
   .parsed (Json.obj [("name", .str "alpha"), ("version", .str "1.0")]),
   true, []⟩

/-- The corrupt store entry of the C7 scenario: a subdirectory with no
`template.json`. -/
def badStoreEntry : StoreEntry :=
  ⟨"broken", true, .absent, true, []⟩

/-- A store entry whose `template.json` parses to a JSON array: Python's
`data.get('variables', {})` then raises an uncaught `AttributeError`. -/
def evilStoreEntry : StoreEntry :=
  ⟨"evil", true, .parsed (Json.arr []), true, []⟩

/-- A store entry whose `template.json` exists but cannot be opened:
`open()` raises an uncaught `OSError`. -/
def lockedStoreEntry : StoreEntry :=
  ⟨"locked", true, .unreadable, true, []⟩

theorem listTemplatesLoop_ok (now : String) (entries : List StoreEntry)
    (h : ∀ e ∈ entries, e.isDir = true →
      loadOutcomeCaught (loadStoreEntry now e) = true) :
    ∃ ts, listTemplatesLoop now entries = .ok ts ∧
      ∀ t, t ∈ ts ↔
        ∃ e ∈ entries, e.isDir = true ∧ loadStoreEntry now e = .ok t := by
  induction entries with
  | nil => exact ⟨[], rfl, by simp⟩
  | cons e rest ih =>
    obtain ⟨ts, hts, hmem⟩ :=
      ih (fun q hq => h q (List.mem_cons_of_mem _ hq))
    by_cases hd : e.isDir = true
    · cases hl : loadStoreEntry now e with
      | ok t =>
        refine ⟨t :: ts, ?_, ?_⟩
        · simp [listTemplatesLoop, hd, hl, hts, Except.map]
        · intro x
          rw [List.mem_cons, hmem]
          constructor
          · rintro (rfl | ⟨q, hq, hqd, hql⟩)
            · exact ⟨e, List.mem_cons_self _ _, hd, hl⟩
            · exact ⟨q, List.mem_cons_of_mem _ hq, hqd, hql⟩
          · rintro ⟨q, hq, hqd, hql⟩
            rcases List.mem_cons.mp hq with rfl | hq'
            · rw [hl] at hql
              left
              injection hql with hh
              exact hh.symm
            · exact Or.inr ⟨q, hq', hqd, hql⟩
      | error err =>
        have hc : err.caught = true := by
          have hce := h e (List.mem_cons_self _ _) hd
          rw [hl] at hce
          exact hce
        refine ⟨ts, by simp [listTemplatesLoop, hd, hl, hc, hts], ?_⟩
        intro x
        rw [hmem]
        constructor
        · rintro ⟨q, hq, hqd, hql⟩
          exact ⟨q, List.mem_cons_of_mem _ hq, hqd, hql⟩
        · rintro ⟨q, hq, hqd, hql⟩
          rcases List.mem_cons.mp hq with rfl | hq'
          · rw [hl] at hql
            exact absurd hql (by simp)
          · exact ⟨q, hq', hqd, hql⟩
    · refine ⟨ts, by simp [listTemplatesLoop, hd, hts], ?_⟩
      intro x
      rw [hmem]
      constructor
      · rintro ⟨q, hq, hqd, hql⟩
        exact ⟨q, List.mem_cons_of_mem _ hq, hqd, hql⟩
      · rintro ⟨q, hq, hqd, hql⟩
        rcases List.mem_cons.mp hq with rfl | hq'
        · exact absurd hqd hd
        · exact ⟨q, hq', hqd, hql⟩

/-- C7 counterexample: `list_custom_templates` is not total on every
store state — a subdirectory whose `template.json` parses to a JSON
array makes `from_json` raise an `AttributeError`, and one whose
`template.json` cannot be opened makes `open()` raise an `OSError`;
neither is caught by `except (FileNotFoundError, ValueError)`, so the
listing raises instead of returning a list. -/
theorem C7_counterexample :
    list_custom_templates "NOW" [evilStoreEntry] =
      .error .attributeError ∧
    LoadError.caught .attributeError = false ∧
    list_custom_templates "NOW" [lockedStoreEntry] =
      .error .unreadableMetadata ∧
    LoadError.caught .unreadableMetadata = false :=
  ⟨rfl, rfl, rfl, rfl⟩

/-- C7 amended: when every directory entry of the store either loads or
fails with an exception the listing catches (`FileNotFoundError` /
`ValueError`: missing metadata file, missing structure directory, JSON
parse failure, or invalid metadata of a well-shaped file), the listing
raises nothing, omits exactly the failing entries with a warning, and
returns the loaded templates sorted by name; in particular a store with
one well-formed template and one subdirectory missing its metadata file
yields exactly the one well-formed template. (Without that condition
the listing can raise, see the counterexample.) -/
theorem C7_amended_list_skips_caught_failures (now : String)
    (entries : List StoreEntry)
    (h : ∀ e ∈ entries, e.isDir = true →
      loadOutcomeCaught (loadStoreEntry now e) = true) :
    (∃ ts, list_custom_templates now entries = .ok ts ∧
      (∀ t, t ∈ ts ↔
        ∃ e ∈ entries, e.isDir = true ∧ loadStoreEntry now e = .ok t) ∧
      ts.Pairwise (fun a b => a.name ≤ b.name)) ∧
    (list_custom_templates "NOW" [goodStoreEntry, badStoreEntry]).map
      (List.map Template.name) = .ok ["alpha"] ∧
    loadStoreEntry "NOW" badStoreEntry = .error .missingMetadata ∧
    LoadError.caught .missingMetadata = true := by
  refine ⟨?_, rfl, rfl, rfl⟩
  obtain ⟨ts, hts, hmem⟩ := listTemplatesLoop_ok now entries h
  refine ⟨sortTemplatesByName ts, ?_, ?_,
    pairwise_sortTemplatesByName ts⟩
  · unfold list_custom_templates
    rw [hts]
    rfl
  · intro t
    rw [mem_sortTemplatesByName, hmem]

/-- C7 amended witness: the two-entry scenario store satisfies the
caught-failures condition and lists exactly `alpha`. -/
theorem C7_amended_list_skips_caught_failures_witness :
    (∃ ts, list_custom_templates "NOW" [goodStoreEntry, badStoreEntry] =
        .ok ts ∧
      (∀ t, t ∈ ts ↔
        ∃ e ∈ [goodStoreEntry, badStoreEntry], e.isDir = true ∧
          loadStoreEntry "NOW" e = .ok t) ∧
      ts.Pairwise (fun a b => a.name ≤ b.name)) ∧
    (list_custom_templates "NOW" [goodStoreEntry, badStoreEntry]).map
      (List.map Template.name) = .ok ["alpha"] ∧
    loadStoreEntry "NOW" badStoreEntry = .error .missingMetadata ∧
    LoadError.caught .missingMetadata = true :=
  C7_amended_list_skips_caught_failures "NOW"
    [goodStoreEntry, badStoreEntry] (by decide)

/-! ## Claim C6 -/

/-- A decomposition of text into literal runs and `\x7b\x7bname\x7d\x7d`
tokens, for stating what one `re.sub` pass does. -/
inductive Segment where
  | lit (s : List Char)
  | tok (name : String)

/-- The text a segment denotes. -/
def renderSeg : Segment → List Char
  | .lit s => s
  | .tok n => tokenText n

/-- The text of a segment list. -/
def renderSegs (segs : List Segment) : List Char :=
  (segs.map renderSeg).flatten

/-- What substitution does to one segment: a token whose name is a key
of the map becomes the stringified value, any other token stays
verbatim, literal text is untouched. -/
def substSeg (vsubs : List (String × Json)) : Segment → List Char
  | .lit s => s
  | .tok n =>
    match dlookup vsubs n with
    | some v => v.pyStr.data
    | none => tokenText n

/-- The identifier rule of `VARIABLE_PATTERN`:
`[a-zA-Z_][a-zA-Z0-9_]*`. -/
def validIdent (n : String) : Bool :=
  match n.data with
  | [] => false
  | c :: rest => isIdentStart c && rest.all isIdentChar

/-- A well-formed segment: literal text holding no `{` (so it can start
no token match), tokens with a valid identifier. -/
def goodSeg : Segment → Bool
  | .lit s => s.all (fun c => c != '{')
  | .tok n => validIdent n

theorem tryMatchVar_cons_ne (c : Char) (cs : List Char)
    (h : c ≠ '{') : tryMatchVar (c :: cs) = none := by
  unfold tryMatchVar
  split
  next heq =>
    rw [List.cons.injEq] at heq
    exact absurd heq.1 h
  next => rfl

theorem substituteChars_append_lit (vsubs : List (String × Json))
    (s t : List Char) (h : s.all (fun c => c != '{') = true) :
    substituteChars vsubs (s ++ t) = s ++ substituteChars vsubs t := by
  induction s with
  | nil => simp
  | cons c s' ih =>
    simp only [List.all_cons, Bool.and_eq_true, bne_iff_ne] at h
    obtain ⟨hc, hs'⟩ := h
    rw [List.cons_append, substituteChars_eq,
      tryMatchVar_cons_ne c _ hc]
    dsimp only
    rw [ih (by simpa using hs')]
    rfl

theorem takeWhile_all_append (p : Char → Bool) (xs : List Char)
    (y : Char) (t : List Char) (hall : xs.all p = true)
    (hy : p y = false) :
    (xs ++ y :: t).takeWhile p = xs := by
  induction xs with
  | nil => simp [List.takeWhile, hy]
  | cons x xs ih =>
    simp only [List.all_cons, Bool.and_eq_true] at hall
    simp [List.takeWhile_cons, hall.1, ih hall.2]

theorem dropWhile_all_append (p : Char → Bool) (xs : List Char)
    (y : Char) (t : List Char) (hall : xs.all p = true)
    (hy : p y = false) :
    (xs ++ y :: t).dropWhile p = y :: t := by
  induction xs with
  | nil => simp [List.dropWhile, hy]
  | cons x xs ih =>
    simp only [List.all_cons, Bool.and_eq_true] at hall
    simp only [List.cons_append, List.dropWhile_cons, hall.1]
    exact ih hall.2

theorem identStart_identChar (c : Char) (h : isIdentStart c = true) :
    isIdentChar c = true := by
  unfold isIdentStart at h
  unfold isIdentChar Char.isAlphanum
  rcases Bool.or_eq_true _ _ |>.mp h with h1 | h1
  · simp [h1]
  · simp [h1]

theorem tryMatchVar_token (n : String) (t : List Char)
    (h : validIdent n = true) :
    tryMatchVar (tokenText n ++ t) = some (n, t) := by
  unfold validIdent at h
  cases hnd : n.data with
  | nil => rw [hnd] at h; simp at h
  | cons c rest =>
    rw [hnd] at h
    simp only [Bool.and_eq_true] at h
    obtain ⟨hs, hall⟩ := h
    have hshape : tokenText n ++ t =
        '{' :: '{' :: c :: (rest ++ '}' :: '}' :: t) := by
      simp [tokenText, hnd]
    rw [hshape]
    have hallc : (c :: rest).all isIdentChar = true := by
      simp only [List.all_cons, Bool.and_eq_true]
      exact ⟨identStart_identChar c hs, hall⟩
    have hdw : (c :: (rest ++ '}' :: '}' :: t)).dropWhile isIdentChar =
        '}' :: '}' :: t := by
      rw [show c :: (rest ++ '}' :: '}' :: t) =
        (c :: rest) ++ '}' :: '}' :: t from rfl]
      exact dropWhile_all_append isIdentChar (c :: rest) '}' _ hallc rfl
    have htw : (c :: (rest ++ '}' :: '}' :: t)).takeWhile isIdentChar =
        c :: rest := by
      rw [show c :: (rest ++ '}' :: '}' :: t) =
        (c :: rest) ++ '}' :: '}' :: t from rfl]
      exact takeWhile_all_append isIdentChar (c :: rest) '}' _ hallc rfl
    have hred : tryMatchVar ('{' :: '{' :: c :: (rest ++ '}' :: '}' :: t)) =
        if isIdentStart c then
          match List.dropWhile isIdentChar
              (c :: (rest ++ '}' :: '}' :: t)) with
          | '}' :: '}' :: rest3 =>
            some (String.mk (List.takeWhile isIdentChar
              (c :: (rest ++ '}' :: '}' :: t))), rest3)
          | _ => none
        else none := rfl
    rw [hred, hs, hdw, htw, ← hnd]
    rfl

/-- C6: one `substitute_variables` pass over text decomposed into
literal runs (holding no brace) and well-formed tokens replaces exactly
the tokens whose name is a key of the resolved map with the stringified
value, leaves every other token verbatim in the output, and never fails
(the function is total by construction). -/
theorem C6_substitution_per_token (vsubs : List (String × Json))
    (segs : List Segment) (h : ∀ s ∈ segs, goodSeg s = true) :
    substituteChars vsubs (renderSegs segs) =
      (segs.map (substSeg vsubs)).flatten := by
  induction segs with
  | nil => rfl
  | cons s rest ih =>
    have hs := h s (List.mem_cons_self _ _)
    have hrest := ih (fun q hq => h q (List.mem_cons_of_mem _ hq))
    cases s with
    | lit l =>
      show substituteChars vsubs ((Segment.lit l :: rest).map
        renderSeg).flatten = _
      simp only [List.map_cons, List.flatten_cons]
      rw [show renderSeg (Segment.lit l) = l from rfl,
        substituteChars_append_lit vsubs l _ (by simpa [goodSeg] using hs)]
      rw [show renderSegs rest = (rest.map renderSeg).flatten from rfl]
        at hrest
      rw [hrest]
      rfl
    | tok n =>
      show substituteChars vsubs ((Segment.tok n :: rest).map
        renderSeg).flatten = _
      simp only [List.map_cons, List.flatten_cons]
      rw [show renderSeg (Segment.tok n) = tokenText n from rfl,
        substituteChars_eq, tryMatchVar_token n _ (by simpa [goodSeg] using hs)]
      rw [show renderSegs rest = (rest.map renderSeg).flatten from rfl]
        at hrest
      simp only [hrest]
      rfl

/-- C6 witness: `x={{n}};{{unknown_var}}` with `n = "demo"` resolves
the known token and keeps the unknown one verbatim. -/
theorem C6_substitution_per_token_witness :
    substituteChars [("n", Json.str "demo")]
      (renderSegs [Segment.lit ['x', '='], Segment.tok "n",
        Segment.lit [';'], Segment.tok "unknown_var"]) =
      ([Segment.lit ['x', '='], Segment.tok "n", Segment.lit [';'],
        Segment.tok "unknown_var"].map
        (substSeg [("n", Json.str "demo")])).flatten :=
  C6_substitution_per_token [("n", Json.str "demo")]
    [Segment.lit ['x', '='], Segment.tok "n", Segment.lit [';'],
      Segment.tok "unknown_var"]
    (by decide)

/-! ## Claim C3 -/

theorem rebuild_variables_map (l : List (String × TemplateVariable))
    (hk : ∀ p ∈ l, p.1 = p.2.name) :
    (l.map fun p => (p.1, p.2.to_dict)).map (fun p =>
      (p.1,
       { name := p.1,
         type := Json.getStr p.2 "type" "string",
         description := Json.getStr p.2 "description" "",
         required := (Json.getD p.2 "required" (.bool false)).truthy,
         default := Json.getD p.2 "default" .null : TemplateVariable })) =
      l := by
  induction l with
  | nil => rfl
  | cons p rest ih =>
    obtain ⟨k, v⟩ := p
    have hkv : k = v.name := hk (k, v) (List.mem_cons_self _ _)
    simp only [List.map_cons]
    refine congrArg₂ List.cons ?_
      (ih fun q hq => hk q (List.mem_cons_of_mem _ hq))
    show (k, TemplateVariable.mk k v.type v.description v.required
      v.default) = (k, v)
    rw [hkv]

/-- C3: for every valid metadata `M` (passing `validate()`, and with
the `__post_init__` invariant that `variable_substitution` and
`file_patterns` are truthy, which holds for every constructed
instance), loading the saved form — `from_json` of `to_dict`, the file
being `json.dump`/`json.load` of that value — yields the same `name`,
`version`, `variables` map (names, types, required flags and defaults
included), the same `dependencies`, and the same keys of
`variable_substitution` and `file_patterns`. -/
theorem C3_save_load_roundtrip (now : String) (M : TemplateMetadata)
    (hvalid : M.validate = [])
    (hvs : M.variable_substitution.truthy = true)
    (hfp : M.file_patterns.truthy = true) :
    (TemplateMetadata.from_json now M.to_dict).name = M.name ∧
    (TemplateMetadata.from_json now M.to_dict).version = M.version ∧
    (TemplateMetadata.from_json now M.to_dict).«variables» =
      M.«variables» ∧
    (TemplateMetadata.from_json now M.to_dict).dependencies =
      M.dependencies ∧
    (TemplateMetadata.from_json now M.to_dict).variable_substitution.keys = M.variable_substitution.keys ∧
    (TemplateMetadata.from_json now M.to_dict).file_patterns.keys =
      M.file_patterns.keys := by
  have hk : ∀ p ∈ M.«variables», p.1 = p.2.name := by
    intro p hp
    by_contra hne
    unfold TemplateMetadata.validate at hvalid
    rcases List.append_eq_nil.mp hvalid with ⟨h12, h3⟩
    have := List.filterMap_eq_nil_iff.mp h3 p hp
    rw [if_pos hne] at this
    simp at this
  have hvsx : (TemplateMetadata.from_json now M.to_dict).variable_substitution = M.variable_substitution := by
    show (if M.variable_substitution.truthy then M.variable_substitution
      else defaultVariableSubstitution) = M.variable_substitution
    rw [hvs]
    rfl
  have hfpx : (TemplateMetadata.from_json now M.to_dict).file_patterns = M.file_patterns := by
    show (if M.file_patterns.truthy then M.file_patterns
      else defaultFilePatterns) = M.file_patterns
    rw [hfp]
    rfl
  refine ⟨rfl, rfl, ?_, rfl, ?_, ?_⟩
  · exact rebuild_variables_map M.«variables» hk
  · rw [hvsx]
  · rw [hfpx]

/-- A small constructed metadata instance (as the dataclass constructor
builds it, `__post_init__` included) for the C3 witness. -/
def sampleMetadata : TemplateMetadata :=
  TemplateMetadata.post_init "2025-01-01T00:00:00"
    { name := Json.str "sample",
      «variables» := [("db", TemplateVariable.mk "db" "string" "" false
        Json.null)] }

/-- C3 witness: the round trip at a concrete valid metadata value. -/
theorem C3_save_load_roundtrip_witness :
    (TemplateMetadata.from_json "NOW" sampleMetadata.to_dict).name = sampleMetadata.name ∧
    (TemplateMetadata.from_json "NOW" sampleMetadata.to_dict).version = sampleMetadata.version ∧
    (TemplateMetadata.from_json "NOW" sampleMetadata.to_dict).«variables» = sampleMetadata.«variables» ∧
    (TemplateMetadata.from_json "NOW" sampleMetadata.to_dict).dependencies = sampleMetadata.dependencies ∧
    (TemplateMetadata.from_json "NOW" sampleMetadata.to_dict).variable_substitution.keys = sampleMetadata.variable_substitution.keys ∧
    (TemplateMetadata.from_json "NOW" sampleMetadata.to_dict).file_patterns.keys = sampleMetadata.file_patterns.keys :=
  C3_save_load_roundtrip "NOW" sampleMetadata (by decide) (by decide)
    (by decide)
